import Mathlib

/-!
Shallow embedding of the centralcontrol aging measurement server, translated
from src/centralcontrol/mqtt_server.py and src/centralcontrol/utility_handler.py.

The embedding records, in order, the externally visible effects of the code:
bus publications (topic, retain flag, payload shape), instrument actions and
process-management actions.  The fabric module and the instrument driver
modules (motion, pcb, k2400, illumination, virt) are part of the repository
but are not among the sources, so their behaviour is abstracted: measurement
calls are oracles that either return (possibly pruned) pixel queues or raise,
and worker task bodies are collapsed to a single task action event.
-/

namespace CentralControl

/-- Exceptions distinguished by the except clauses of the server code:
KeyboardInterrupt versus any other Exception. -/
inductive Exn where
  | interrupt
  | fault
  deriving DecidableEq, Repr

/-- Pickled payload shapes that the server publishes on the bus. -/
inductive Payload where
  | str (s : String)
  | logMsg (level : Nat) (msg : String)
  | strList (l : List String)
  | spectrum
  deriving DecidableEq, Repr

/-- Instrument-facing actions performed through the fabric measurement
object (fabric is repository code outside the sources; the actions are the
calls made by mqtt_server.py). -/
inductive InstrAct where
  | connect (target : String)
  | setIntensity
  | lightOn
  | lightOff
  | enableOutput (b : Bool)
  | disconnectAll
  | measureSpectrum
  deriving DecidableEq, Repr

/-- One externally visible effect of the measurement server, in program
order: a bus publication, an instrument action, or a process action
(start, SIGINT, join). -/
inductive Ev where
  | pub (topic : String) (retain : Bool) (payload : Payload)
  | instr (act : InstrAct)
  | procStart (pid : Nat)
  | sigint
  | join
  deriving DecidableEq, Repr

/-- Modelled from the spec: the fabric module (not among the sources)
provides a log helper that publishes a level and message payload on the
measurement/log topic, as described by the external-interface section of
the spec. -/
def logEv (level : Nat) (msg : String) : Ev :=
  Ev.pub "measurement/log" false (Payload.logMsg level msg)

/-- mqtt_server.start_process: if no process is alive, start a new one and
publish retained Busy; otherwise keep the existing process object and
publish a level-30 busy log.  Processes are identified by a pid so that
reuse of the existing object is observable. -/
def start_process (process_pid : Nat) (alive : Bool) (new_pid : Nat) :
    List Ev × Nat :=
  if alive = false then
    ([Ev.procStart new_pid,
      Ev.pub "measurement/status" true (Payload.str "Busy")], new_pid)
  else
    ([Ev.pub "measurement/log" false
        (Payload.logMsg 30 "Measurement server busy!")], process_pid)

/-- mqtt_server.stop_process: if the process is alive, SIGINT it, join it,
then publish the stop-completed log, retained Ready, and an empty (not
retained) live-device list; otherwise publish a level-30 idle log.
Returns the resulting liveness of the process. -/
def stop_process (alive : Bool) : List Ev × Bool :=
  if alive = true then
    ([Ev.sigint, Ev.join,
      Ev.pub "measurement/log" false
        (Payload.logMsg 20 "Request to stop completed!"),
      Ev.pub "measurement/status" true (Payload.str "Ready"),
      Ev.pub "plotter/live_devices" false (Payload.strList [])], false)
  else
    ([Ev.pub "measurement/log" false
        (Payload.logMsg 30 "Nothing to stop. Measurement server is idle.")],
      alive)

/-- Run arguments consumed by the i-v-t sequencer (the request args fields
read by mqtt_server._ivt and mqtt_server._run).  Dwell times are floats in
the source and only compared against zero; they are embedded as integers. -/
structure IvtArgs where
  enable_solarsim : Bool
  cycles : Nat
  i_dwell : Int
  i_dwell_value : Int
  sweep_check : Bool
  lit_sweep : Int
  return_switch : Bool
  mppt_dwell : Int
  v_dwell : Int
  deriving DecidableEq, Repr

/-- Modelled from the spec: outcomes of the fabric measurement methods
(connect_instruments, compliance_current_guess, steady_state, sweep,
track_max_power), which live in repository modules outside the sources.
Each call may raise, and each call receiving the pixel queue may prune it;
oracles take the cycle number so behaviour can differ between cycles. -/
structure MeasOracle where
  hasLight : Bool
  connectResult : Option Exn
  complianceGuess : Nat → List String → Option Exn
  steadyStateI : Nat → List String → Except Exn (List String)
  sweepFwd : Nat → String → List String → Except Exn (List String)
  sweepRev : Nat → String → List String → Except Exn (List String)
  track : Nat → List String → Except Exn (List String)
  steadyStateV : Nat → List String → Except Exn (List String)

/-- Abnormal exit of a point inside the per-cycle loop: a raised exception
or the break statement of the pruning branch. -/
inductive Stop where
  | exn (e : Exn)
  | brk
  deriving DecidableEq, Repr

/-- Light-on actions guarded by hasattr(measurement, le). -/
def lightOnEvs (o : MeasOracle) : List Ev :=
  if o.hasLight then [Ev.instr InstrAct.lightOn] else []

/-- Light-off actions guarded by hasattr(measurement, le). -/
def lightOffEvs (o : MeasOracle) : List Ev :=
  if o.hasLight then [Ev.instr InstrAct.lightOff] else []

/-- mqtt_server._clear_plot: publish an empty payload on the plotter clear
sub-topic for a measurement kind. -/
def clearEv (kind : String) : Ev :=
  Ev.pub ("plotter/" ++ kind ++ "/clear") false (Payload.str "")

/-- Sequencing of two fallible, event-emitting steps: a raised exception or
break in the first step skips the second, keeping the events emitted so
far (Python control flow inside one cycle of the while loop). -/
def stepBind (x : List Ev × Except Stop (List String))
    (f : List String → List Ev × Except Stop (List String)) :
    List Ev × Except Stop (List String) :=
  match x with
  | (evs, Except.error s) => (evs, Except.error s)
  | (evs, Except.ok px) =>
    match f px with
    | (evs2, r) => (evs ++ evs2, r)

/-- mqtt_server._ivt sweep-list selection: when sweep_check is set the
lit_sweep selector picks the ordered sweep list, any unrecognized selector
leaving the initial empty list. -/
def sweepsFor (sweep_check : Bool) (lit_sweep : Int) : List String :=
  if sweep_check then
    if lit_sweep = 0 then ["dark", "light"]
    else if lit_sweep = 1 then ["light", "dark"]
    else if lit_sweep = 2 then ["dark"]
    else if lit_sweep = 3 then ["light"]
    else []
  else []

/-- Steady-state Voc phase of one cycle (the i_dwell branch of _ivt). -/
def vocPhase (a : IvtArgs) (o : MeasOracle) (n : Nat) (pixels : List String) :
    List Ev × Except Stop (List String) :=
  if a.i_dwell > 0 then
    let evs := [logEv 20 "Measuring steady-state Voc"] ++ lightOnEvs o
      ++ [clearEv "vt_measurement"]
    match o.steadyStateI n pixels with
    | Except.error e => (evs, Except.error (Stop.exn e))
    | Except.ok px => (evs, Except.ok px)
  else ([], Except.ok pixels)

/-- Body of one iteration of the sweep for-loop of _ivt: light toggling for
the sweep polarity, the first (forward) sweep when sweep_check is set, and
the second (return) sweep when return_switch is set. -/
def sweepOne (a : IvtArgs) (o : MeasOracle) (n : Nat) (s : String)
    (pixels : List String) : List Ev × Except Stop (List String) :=
  let evLight := if s = "dark" then lightOffEvs o else lightOnEvs o
  let first :=
    if a.sweep_check then
      let evs := evLight
        ++ [logEv 20 ("Performing first " ++ s ++ " sweep."),
            clearEv "iv_measurement"]
      match o.sweepFwd n s pixels with
      | Except.error e => (evs, Except.error (Stop.exn e))
      | Except.ok px => (evs, Except.ok px)
    else (evLight, Except.ok pixels)
  stepBind first (fun px =>
    if a.return_switch then
      let evs2 := [logEv 20 ("Performing second " ++ s ++ " sweep.")]
      match o.sweepRev n s px with
      | Except.error e => (evs2, Except.error (Stop.exn e))
      | Except.ok px2 => (evs2, Except.ok px2)
    else ([], Except.ok px))

/-- The sweep for-loop of _ivt over an already computed sweep list. -/
def sweepsGo (a : IvtArgs) (o : MeasOracle) (n : Nat) :
    List String → List String → List Ev × Except Stop (List String)
  | [], px => ([], Except.ok px)
  | s :: rest, px =>
    stepBind (sweepOne a o n s px) (fun px2 => sweepsGo a o n rest px2)

/-- Sweep section of one cycle of _ivt. -/
def sweepsPhase (a : IvtArgs) (o : MeasOracle) (n : Nat)
    (pixels : List String) : List Ev × Except Stop (List String) :=
  sweepsGo a o n (sweepsFor a.sweep_check a.lit_sweep) pixels

/-- End-of-phase pruning reconciliation of _ivt: compare the pixel-queue
size before tracking with the queue after tracking; on a change publish the
retained live-device list, or, when the queue emptied, a level-30 warning,
a retained empty list, and the break flag. -/
def mpptReconcile (pre : Nat) (px : List String) : List Ev × Bool :=
  if pre ≠ px.length then
    if px.length = 0 then
      ([logEv 30 "No devices left to measure.",
        Ev.pub "plotter/live_devices" true (Payload.strList [])], true)
    else
      ([Ev.pub "plotter/live_devices" true (Payload.strList px)], false)
  else ([], false)

/-- Max-power-tracking phase of one cycle (the mppt_dwell branch of _ivt),
ending with the pruning reconciliation; the break of the source becomes a
Stop.brk result. -/
def mpptPhase (a : IvtArgs) (o : MeasOracle) (n : Nat) (pixels : List String) :
    List Ev × Except Stop (List String) :=
  if a.mppt_dwell > 0 then
    let evs := lightOnEvs o
      ++ [logEv 20 "Performing max. power tracking.", clearEv "mppt_measurement"]
    match o.track n pixels with
    | Except.error e => (evs, Except.error (Stop.exn e))
    | Except.ok px =>
      match mpptReconcile pixels.length px with
      | (revs, true) => (evs ++ revs, Except.error Stop.brk)
      | (revs, false) => (evs ++ revs, Except.ok px)
  else ([], Except.ok pixels)

/-- Steady-state constant-voltage phase of one cycle (the v_dwell branch
of _ivt). -/
def jscPhase (a : IvtArgs) (o : MeasOracle) (n : Nat) (pixels : List String) :
    List Ev × Except Stop (List String) :=
  if a.v_dwell > 0 then
    let evs := lightOnEvs o
      ++ [logEv 20 "Measuring current at constant voltage.",
          clearEv "it_measurement"]
    match o.steadyStateV n pixels with
    | Except.error e => (evs, Except.error (Stop.exn e))
    | Except.ok px => (evs, Except.ok px)
  else ([], Except.ok pixels)

/-- One iteration of the while loop of _ivt, for loop counter value n.
Indexing the first pixel for the compliance guess raises on an empty
queue, as list(pixels.values())[0] does. -/
def cycleBody (a : IvtArgs) (o : MeasOracle) (n : Nat) (pixels : List String) :
    List Ev × Except Stop (List String) :=
  let e0 : List Ev := [logEv 20 ("### Loop " ++ toString n ++ " ###")]
  if pixels.isEmpty then (e0, Except.error (Stop.exn Exn.fault))
  else
    match o.complianceGuess n pixels with
    | some e => (e0, Except.error (Stop.exn e))
    | none =>
      stepBind
        (stepBind
          (stepBind
            (stepBind
              (stepBind (e0, Except.ok pixels) (fun px => vocPhase a o n px))
              (fun px => sweepsPhase a o n px))
            (fun px => mpptPhase a o n px))
          (fun px => jscPhase a o n px))
        (fun px => ([logEv 20 ""], Except.ok px))

/-- Result of running the while loop of _ivt: the loop finished (normally
or through break), a phase raised, or the fuel ran out while the loop
condition still held (the cycles equal zero endless mode). -/
inductive LoopRes where
  | done
  | raised (e : Exn)
  | spin
  deriving DecidableEq, Repr

/-- The while loop of _ivt: continue while the loop counter is below
cycles or cycles is zero.  Fuel bounds the number of modelled iterations;
cycles many steps of fuel are enough when cycles is positive. -/
def ivtLoop (a : IvtArgs) (o : MeasOracle) :
    Nat → Nat → List String → List Ev × LoopRes
  | 0, loopv, _ =>
    if loopv < a.cycles ∨ a.cycles = 0 then ([], LoopRes.spin)
    else ([], LoopRes.done)
  | fuel + 1, loopv, pixels =>
    if loopv < a.cycles ∨ a.cycles = 0 then
      match cycleBody a o (loopv + 1) pixels with
      | (evs, Except.error Stop.brk) => (evs, LoopRes.done)
      | (evs, Except.error (Stop.exn e)) => (evs, LoopRes.raised e)
      | (evs, Except.ok px) =>
        match ivtLoop a o fuel (loopv + 1) px with
        | (evs2, r) => (evs ++ evs2, r)
    else ([], LoopRes.done)

/-- Result of a whole _ivt call. -/
inductive IvtRes where
  | done
  | raised (e : Exn)
  | spin
  deriving DecidableEq, Repr

/-- mqtt_server._ivt: connect instruments (with the light only when the
solar simulator is enabled), set the light intensity, signal daq/start,
publish the retained live-device list, run the cycle loop, and, only when
the loop ends without raising, run the teardown block: retained empty
live-device list, source output off, light off, daq/stop. -/
def ivt (a : IvtArgs) (o : MeasOracle) (pixels0 : List String) (fuel : Nat) :
    List Ev × IvtRes :=
  let connectEv :=
    Ev.instr (InstrAct.connect (if a.enable_solarsim then "smu light" else "smu"))
  match o.connectResult with
  | some e => ([connectEv], IvtRes.raised e)
  | none =>
    let pre := [connectEv]
      ++ (if o.hasLight then [Ev.instr InstrAct.setIntensity] else [])
      ++ [Ev.pub "daq/start" false (Payload.str ""),
          Ev.pub "plotter/live_devices" true (Payload.strList pixels0)]
    match ivtLoop a o fuel 0 pixels0 with
    | (evs, LoopRes.done) =>
      (pre ++ evs
        ++ [Ev.pub "plotter/live_devices" true (Payload.strList []),
            Ev.instr (InstrAct.enableOutput false)]
        ++ lightOffEvs o
        ++ [Ev.pub "daq/stop" false (Payload.str "")], IvtRes.done)
    | (evs, LoopRes.raised e) => (pre ++ evs, IvtRes.raised e)
    | (evs, LoopRes.spin) => (pre ++ evs, IvtRes.spin)

/-- mqtt_server._calibrate_spectrum: connect the light source, measure and
publish the retained spectrum, and always republish retained Ready.  Only
a KeyboardInterrupt marks the run user-aborted; any other exception logs a
severity-40 abort message but leaves the flag unset, as in the source. -/
def calibrateSpectrum (outcome : Except Exn Unit) (hasLe : Bool) :
    List Ev × Bool :=
  let pre := [logEv 20 "Calibrating solar simulator spectrum...",
              Ev.instr (InstrAct.connect "solarsim")]
    ++ (if hasLe then [Ev.instr InstrAct.setIntensity] else [])
  match outcome with
  | Except.ok _ =>
    (pre ++ [Ev.instr InstrAct.measureSpectrum,
             Ev.pub "calibration/spectrum" true Payload.spectrum,
             logEv 20 "Finished calibrating solar simulator spectrum!",
             Ev.pub "measurement/status" true (Payload.str "Ready")], false)
  | Except.error Exn.interrupt =>
    (pre ++ [Ev.pub "measurement/status" true (Payload.str "Ready")], true)
  | Except.error Exn.fault =>
    (pre ++ [logEv 40 "SPECTRUM CALIBRATION ABORTED! <exception>",
             Ev.pub "measurement/status" true (Payload.str "Ready")], false)

/-- Calibration step of _run: performed only when IV_stuff is present and
the solar simulator is enabled. -/
def calibPart (hasIV : Bool) (a : IvtArgs) (cal : Except Exn Unit)
    (hasLe : Bool) : List Ev × Bool :=
  if hasIV && a.enable_solarsim then calibrateSpectrum cal hasLe
  else ([], false)

/-- Outcome of a whole _run invocation: the published events, the
user-aborted flag, and whether the job process finished (false only in the
endless-cycles mode when the modelling fuel ran out). -/
structure RunOut where
  evs : List Ev
  userAborted : Bool
  finished : Bool
  deriving DecidableEq, Repr

/-- mqtt_server._run: optional spectrum calibration, then the DAQ
readiness rendezvous (a none message models the 30 second timeout or any
exception while waiting; an init_success of false is a negative
acknowledgement), then the measurement body guarded by the user-aborted
flag, and finally the retained Ready status. -/
def runJob (hasIV : Bool) (a : IvtArgs) (cal : Except Exn Unit)
    (daqMsg : Option Bool) (o : MeasOracle) (pixels0 : List String)
    (fuel : Nat) : RunOut :=
  let c := calibPart hasIV a cal o.hasLight
  if c.2 then
    { evs := c.1 ++ [logEv 40 "RUN ABORTED!",
        Ev.pub "measurement/status" true (Payload.str "Ready")],
      userAborted := true, finished := true }
  else
    let daqEvs := [logEv 20 "Checking DAQ status..."]
    let ua : Bool :=
      match daqMsg with
      | some true => false
      | some false => true
      | none => true
    if ua then
      { evs := c.1 ++ daqEvs ++ [logEv 40 "RUN ABORTED!",
          Ev.pub "measurement/status" true (Payload.str "Ready")],
        userAborted := true, finished := true }
    else
      if hasIV then
        match ivt a o pixels0 fuel with
        | (ivtEvs, IvtRes.done) =>
          { evs := c.1 ++ daqEvs ++ [logEv 20 "Starting run..."] ++ ivtEvs
              ++ [Ev.instr InstrAct.disconnectAll, logEv 20 "Run complete!",
                  Ev.pub "measurement/status" true (Payload.str "Ready")],
            userAborted := false, finished := true }
        | (ivtEvs, IvtRes.raised Exn.interrupt) =>
          { evs := c.1 ++ daqEvs ++ [logEv 20 "Starting run..."] ++ ivtEvs
              ++ [Ev.pub "measurement/status" true (Payload.str "Ready")],
            userAborted := false, finished := true }
        | (ivtEvs, IvtRes.raised Exn.fault) =>
          { evs := c.1 ++ daqEvs ++ [logEv 20 "Starting run..."] ++ ivtEvs
              ++ [logEv 40 "RUN ABORTED! <exception>",
                  Ev.pub "measurement/status" true (Payload.str "Ready")],
            userAborted := false, finished := true }
        | (ivtEvs, IvtRes.spin) =>
          { evs := c.1 ++ daqEvs ++ [logEv 20 "Starting run..."] ++ ivtEvs,
            userAborted := false, finished := false }
      else
        { evs := c.1 ++ daqEvs
            ++ [logEv 20 "Starting run...", logEv 20 "Run complete!",
                Ev.pub "measurement/status" true (Payload.str "Ready")],
          userAborted := false, finished := true }

/-- Payload of an inbound message on the measurement channel, after a
successful unpickle.  A run request carries the two enable flags read by
msg_handler; a daq init message carries init_success; plain stands for any
other successfully unpickled value (key access on it raises). -/
inductive MPayload where
  | runReq (enable_eqe : Bool) (enable_iv : Bool)
  | daqInit (init_success : Bool)
  | plain
  deriving DecidableEq, Repr

/-- State threaded through msg_handler: the job process object (pid and
liveness) and the daq init queue. -/
structure ServerState where
  processPid : Nat
  alive : Bool
  daqQueue : List MPayload
  deriving DecidableEq, Repr

/-- mqtt_server.msg_handler, one queue message: the topic is given as its
slash-separated parts (msg.topic.split), the payload as none when
pickle.loads raises.  The bare except clause turns any failure, including
key access on a malformed run request, into the severity-40 invalid
payload log, and the loop proceeds. -/
def msgHandlerStep (topicParts : List String) (payload : Option MPayload)
    (st : ServerState) (newPid : Nat) : List Ev × ServerState :=
  let invalid : List Ev :=
    [logEv 40 ("Invalid message payload on topic: "
      ++ String.intercalate "/" topicParts ++ "!")]
  match payload with
  | none => (invalid, st)
  | some p =>
    let channel := topicParts.headD ""
    let action := topicParts.getLastD ""
    if channel = "measurement" then
      if action = "run" then
        match p with
        | MPayload.runReq eqe iv =>
          if eqe || iv then
            match start_process st.processPid st.alive newPid with
            | (evs, pid) =>
              (evs, { st with processPid := pid, alive := true })
          else ([], st)
        | _ => (invalid, st)
      else if action = "stop" then
        match stop_process st.alive with
        | (evs, alive2) => (evs, { st with alive := alive2 })
      else ([], st)
    else if channel = "daq" then
      if action = "init" then ([], { st with daqQueue := st.daqQueue ++ [p] })
      else ([], st)
    else ([], st)

/-- Payload of an inbound utility command message, as seen by
UtilityHandler.filter_cmd: unpicklable, picklable but not iterable,
iterable without a cmd member, or carrying a cmd value. -/
inductive UtilPayload where
  | garbage
  | nonIterable
  | noCmd
  | withCmd (cmd : String)
  deriving DecidableEq, Repr

/-- UtilityHandler.filter_cmd: the default result carries the empty cmd,
replaced by the message only when it unpickles to an iterable containing
cmd.  Only the cmd field is modelled, which is all the manager dispatches
on. -/
def filter_cmd : UtilPayload → String
  | UtilPayload.withCmd c => c
  | _ => ""

/-- Effects of the utility handler threads: an outgoing status log entry
(log_msg), a task enqueued for the worker, a controller-board query, or
one collapsed worker task body. -/
inductive UEv where
  | statusLog (level : Nat) (text : String)
  | enqueueTask (cmd : String)
  | pcbQuery (q : String)
  | taskAction (cmd : String)
  deriving DecidableEq, Repr

/-- Which branch of the manager dispatch fired. -/
inductive MgrOutcome where
  | estopped
  | queued
  | busyRejected
  | droppedDebug
  deriving DecidableEq, Repr

/-- UtilityHandler.manager, one command message after filter_cmd: estop is
handled synchronously (its controller-board interaction is abstracted by
the estopOk oracle); any other cmd is enqueued when the task queue has
zero unfinished tasks and rejected with a level-30 busy log when it has
more; the final debug rejected branch mirrors the source. -/
def managerStep (estopOk : Bool) (unfinished : Nat) (cmd : String) :
    List UEv × MgrOutcome :=
  let e0 : List UEv := [UEv.statusLog 10 "New command message!"]
  if cmd = "estop" then
    (e0 ++ (if estopOk then
        [UEv.pcbQuery "b",
         UEv.statusLog 20
           "Emergency stop command issued. Re-Homing required before any further movements."]
      else [UEv.statusLog 30 "Unable to emergency stop."]),
     MgrOutcome.estopped)
  else if unfinished = 0 then
    (e0 ++ [UEv.enqueueTask cmd], MgrOutcome.queued)
  else if unfinished > 0 then
    (e0 ++ [UEv.statusLog 30 ("Backend busy (task queue size = "
        ++ toString unfinished ++ "). Command rejected.")],
     MgrOutcome.busyRejected)
  else
    (e0 ++ [UEv.statusLog 10 ("Command message rejected:: " ++ cmd)],
     MgrOutcome.droppedDebug)

/-- The cmd values for which UtilityHandler.worker has a dispatch branch
(the elif chain of the try block plus the check_health block after it). -/
def workerCmds : List String :=
  ["home", "goto", "for_pcb", "read_stage", "mono_zero", "spec",
   "round_robin", "check_health"]

/-- Whether the worker has a dispatch branch for a cmd value. -/
def workerHandles (cmd : String) : Bool := workerCmds.contains cmd

/-- UtilityHandler.worker, one dequeued task: the debug new-task log, then
the matching dispatch branch (whose instrument-driving body, living in
repository modules outside the sources, is collapsed to one task action);
a cmd matching no branch performs nothing. -/
def workerStep (cmd : String) (unfinished : Nat) : List UEv :=
  [UEv.statusLog 10 ("New task: " ++ cmd ++ " (queue size = "
    ++ toString unfinished ++ ")")]
  ++ (if workerHandles cmd then [UEv.taskAction cmd] else [])

/-- Oracle in which every measurement call succeeds without pruning. -/
def okOracle : MeasOracle :=
  { hasLight := true
    connectResult := none
    complianceGuess := fun _ _ => none
    steadyStateI := fun _ px => Except.ok px
    sweepFwd := fun _ _ px => Except.ok px
    sweepRev := fun _ _ px => Except.ok px
    track := fun _ px => Except.ok px
    steadyStateV := fun _ px => Except.ok px }

/-- Oracle whose steady-state Voc phase raises a generic exception. -/
def faultVocOracle : MeasOracle :=
  { okOracle with steadyStateI := fun _ _ => Except.error Exn.fault }

/-- Oracle whose max-power tracking prunes the first device of the queue
each cycle. -/
def dropOracle : MeasOracle :=
  { okOracle with track := fun _ px => Except.ok (px.drop 1) }

/-- Arguments of a one-cycle run whose only enabled phase is the
steady-state Voc dwell. -/
def vocOnlyArgs : IvtArgs :=
  { enable_solarsim := false
    cycles := 1
    i_dwell := 1
    i_dwell_value := 0
    sweep_check := false
    lit_sweep := 0
    return_switch := false
    mppt_dwell := 0
    v_dwell := 0 }

/-- Arguments of a one-cycle run whose only enabled phase is max-power
tracking. -/
def mpptOnlyArgs : IvtArgs :=
  { vocOnlyArgs with i_dwell := 0, mppt_dwell := 1 }

/-- Claim C1: single-flight admission.  While the job process is alive,
start_process keeps the existing process object and publishes exactly one
level-30 busy log event; when no job process is alive it launches exactly
one new process and immediately publishes retained status Busy; the run
dispatch of msg_handler leaves the server state unchanged in the busy
case. -/
theorem start_process_single_flight :
    (∀ pid newPid : Nat,
      start_process pid true newPid =
        ([Ev.pub "measurement/log" false
            (Payload.logMsg 30 "Measurement server busy!")], pid))
  ∧ (∀ pid newPid : Nat,
      start_process pid false newPid =
        ([Ev.procStart newPid,
          Ev.pub "measurement/status" true (Payload.str "Busy")], newPid))
  ∧ (∀ (st : ServerState) (newPid : Nat) (eqe iv : Bool),
      st.alive = true → (eqe || iv) = true →
      msgHandlerStep ["measurement", "run"] (some (MPayload.runReq eqe iv))
          st newPid =
        ([Ev.pub "measurement/log" false
            (Payload.logMsg 30 "Measurement server busy!")], st)) := by
  refine ⟨fun pid newPid => rfl, fun pid newPid => rfl, ?_⟩
  intro st newPid eqe iv ha hei
  cases st
  simp_all [msgHandlerStep, start_process]

/-- Witness for claim C1 at a concrete busy server. -/
theorem start_process_single_flight_witness :
    start_process 7 true 8 =
      ([Ev.pub "measurement/log" false
          (Payload.logMsg 30 "Measurement server busy!")], 7)
  ∧ msgHandlerStep ["measurement", "run"] (some (MPayload.runReq true false))
        ⟨7, true, []⟩ 8 =
      ([Ev.pub "measurement/log" false
          (Payload.logMsg 30 "Measurement server busy!")], ⟨7, true, []⟩) :=
  ⟨start_process_single_flight.1 7 8,
   start_process_single_flight.2.2 ⟨7, true, []⟩ 8 true false rfl rfl⟩

/-- Claim C2: the code contradicts the teardown-totality requirement.  At
a run whose steady-state phase raises, the _ivt teardown block never runs:
no enable_output false, no light off, no daq/stop, no cleared live-device
list; the exception propagates out of _ivt.  On the same arguments with a
fault-free oracle the teardown runs exactly once. -/
theorem ivt_fault_skips_teardown :
    (ivt vocOnlyArgs faultVocOracle ["d1"] 1).2 = IvtRes.raised Exn.fault
  ∧ Ev.instr (InstrAct.enableOutput false) ∉
      (ivt vocOnlyArgs faultVocOracle ["d1"] 1).1
  ∧ Ev.instr InstrAct.lightOff ∉ (ivt vocOnlyArgs faultVocOracle ["d1"] 1).1
  ∧ Ev.pub "daq/stop" false (Payload.str "") ∉
      (ivt vocOnlyArgs faultVocOracle ["d1"] 1).1
  ∧ Ev.pub "plotter/live_devices" true (Payload.strList []) ∉
      (ivt vocOnlyArgs faultVocOracle ["d1"] 1).1
  ∧ (ivt vocOnlyArgs okOracle ["d1"] 1).2 = IvtRes.done
  ∧ (ivt vocOnlyArgs okOracle ["d1"] 1).1.count
      (Ev.instr (InstrAct.enableOutput false)) = 1
  ∧ (ivt vocOnlyArgs okOracle ["d1"] 1).1.count
      (Ev.pub "daq/stop" false (Payload.str "")) = 1 := by
  decide

/-- Claim C3 counterexample: stopping a live job publishes the empty
live-device list without the retain flag; no retained empty list is
published at all. -/
theorem stop_process_live_list_not_retained :
    stop_process true =
      ([Ev.sigint, Ev.join,
        Ev.pub "measurement/log" false
          (Payload.logMsg 20 "Request to stop completed!"),
        Ev.pub "measurement/status" true (Payload.str "Ready"),
        Ev.pub "plotter/live_devices" false (Payload.strList [])], false)
  ∧ Ev.pub "plotter/live_devices" true (Payload.strList []) ∉
      (stop_process true).1 := by
  exact ⟨rfl, by decide⟩

/-- Claim C3 as amended: stopping a live job signals SIGINT, joins, then
publishes in order the stop-completed log, retained Ready, and a
non-retained empty live-device list. -/
theorem stop_process_busy_behavior :
    stop_process true =
      ([Ev.sigint, Ev.join,
        Ev.pub "measurement/log" false
          (Payload.logMsg 20 "Request to stop completed!"),
        Ev.pub "measurement/status" true (Payload.str "Ready"),
        Ev.pub "plotter/live_devices" false (Payload.strList [])], false) := rfl

/-- Claim C4 counterexample: the idle nothing-to-stop log event is
published at level 30, not at the informational level 20. -/
theorem stop_process_idle_level :
    stop_process false =
      ([Ev.pub "measurement/log" false
          (Payload.logMsg 30 "Nothing to stop. Measurement server is idle.")],
        false)
  ∧ Ev.pub "measurement/log" false
      (Payload.logMsg 20 "Nothing to stop. Measurement server is idle.") ∉
      (stop_process false).1
  ∧ (30 : Nat) ≠ 20 := by
  exact ⟨rfl, by decide, by decide⟩

/-- Claim C4 as amended: stopping while idle publishes exactly one
level-30 nothing-to-stop log event, sends no signal, publishes no status
message, and leaves the process state unchanged. -/
theorem stop_process_idle_behavior :
    stop_process false =
      ([Ev.pub "measurement/log" false
          (Payload.logMsg 30 "Nothing to stop. Measurement server is idle.")],
        false) := rfl

/-- Claim C5: when the calibration step did not abort and the DAQ
readiness message times out or reports failure, the run is marked
user-aborted, the only events after the calibration part are the checking
log, the severity-40 abort log and the final retained Ready status, and in
particular no instrument action occurs past the calibration part. -/
theorem daq_rendezvous_abort (hasIV : Bool) (a : IvtArgs)
    (cal : Except Exn Unit) (daqMsg : Option Bool) (o : MeasOracle)
    (pixels0 : List String) (fuel : Nat)
    (hc : (calibPart hasIV a cal o.hasLight).2 = false)
    (hd : daqMsg = none ∨ daqMsg = some false) :
    runJob hasIV a cal daqMsg o pixels0 fuel =
      { evs := (calibPart hasIV a cal o.hasLight).1
          ++ [logEv 20 "Checking DAQ status...", logEv 40 "RUN ABORTED!",
              Ev.pub "measurement/status" true (Payload.str "Ready")],
        userAborted := true, finished := true }
  ∧ ∀ act : InstrAct,
      Ev.instr act ∉
        List.drop (calibPart hasIV a cal o.hasLight).1.length
          (runJob hasIV a cal daqMsg o pixels0 fuel).evs := by
  have heq : runJob hasIV a cal daqMsg o pixels0 fuel =
      { evs := (calibPart hasIV a cal o.hasLight).1
          ++ [logEv 20 "Checking DAQ status...", logEv 40 "RUN ABORTED!",
              Ev.pub "measurement/status" true (Payload.str "Ready")],
        userAborted := true, finished := true } := by
    rcases hd with rfl | rfl <;> simp [runJob, hc]
  refine ⟨heq, ?_⟩
  intro act
  rw [heq]
  simp [logEv, List.drop_left]

/-- Witness for claim C5: a run with the solar simulator disabled and a
DAQ timeout aborts with no instrument action at all. -/
theorem daq_rendezvous_abort_witness :
    (calibPart true vocOnlyArgs (Except.ok ()) okOracle.hasLight).2 = false
  ∧ runJob true vocOnlyArgs (Except.ok ()) none okOracle [] 0 =
      { evs := [logEv 20 "Checking DAQ status...", logEv 40 "RUN ABORTED!",
                Ev.pub "measurement/status" true (Payload.str "Ready")],
        userAborted := true, finished := true } := by
  refine ⟨rfl, ?_⟩
  have h := (daq_rendezvous_abort true vocOnlyArgs (Except.ok ()) none okOracle
    [] 0 rfl (Or.inl rfl)).1
  simpa using h

/-- Claim C6: sweep selector correctness.  With sweep_check set the
selector values 0, 1, 2, 3 yield exactly the claimed ordered sweep lists,
every other selector value yields the empty list, and an empty sweep list
makes the sweep section of a cycle emit nothing. -/
theorem sweep_selector_correct :
    sweepsFor true 0 = ["dark", "light"]
  ∧ sweepsFor true 1 = ["light", "dark"]
  ∧ sweepsFor true 2 = ["dark"]
  ∧ sweepsFor true 3 = ["light"]
  ∧ (∀ s : Int, s ≠ 0 → s ≠ 1 → s ≠ 2 → s ≠ 3 → sweepsFor true s = [])
  ∧ (∀ (a : IvtArgs) (o : MeasOracle) (n : Nat) (px : List String),
      sweepsFor a.sweep_check a.lit_sweep = [] →
      sweepsPhase a o n px = ([], Except.ok px)) := by
  refine ⟨rfl, rfl, rfl, rfl, ?_, ?_⟩
  · intro s h0 h1 h2 h3
    simp [sweepsFor, h0, h1, h2, h3]
  · intro a o n px h
    unfold sweepsPhase
    rw [h]
    rfl

/-- Witness for claim C6 at the concrete selector value 4 and a request
with sweeps disabled. -/
theorem sweep_selector_correct_witness :
    sweepsFor true 4 = []
  ∧ sweepsPhase vocOnlyArgs okOracle 1 ["p"] = ([], Except.ok ["p"]) :=
  ⟨sweep_selector_correct.2.2.2.2.1 4 (by decide) (by decide) (by decide)
      (by decide),
   sweep_selector_correct.2.2.2.2.2 vocOnlyArgs okOracle 1 ["p"] rfl⟩

/-- Claim C7: end-of-phase pruning reconciliation.  In a cycle with
mppt_dwell positive, tracking that shrinks the queue to a non-zero size
republishes the retained live-device list with the survivors; shrinking to
zero logs a level-30 warning, publishes a retained empty list, and breaks;
an unchanged size publishes nothing.  A break ends the while loop at that
cycle, and a raised or broken step skips all later phases of the cycle. -/
theorem mppt_pruning_reconciliation :
    (∀ (a : IvtArgs) (o : MeasOracle) (n : Nat) (pixels px2 : List String),
      a.mppt_dwell > 0 → o.track n pixels = Except.ok px2 →
      px2.length < pixels.length → px2 ≠ [] →
      mpptPhase a o n pixels =
        (lightOnEvs o ++ [logEv 20 "Performing max. power tracking.",
            clearEv "mppt_measurement",
            Ev.pub "plotter/live_devices" true (Payload.strList px2)],
         Except.ok px2))
  ∧ (∀ (a : IvtArgs) (o : MeasOracle) (n : Nat) (pixels : List String),
      a.mppt_dwell > 0 → o.track n pixels = Except.ok [] → pixels ≠ [] →
      mpptPhase a o n pixels =
        (lightOnEvs o ++ [logEv 20 "Performing max. power tracking.",
            clearEv "mppt_measurement",
            logEv 30 "No devices left to measure.",
            Ev.pub "plotter/live_devices" true (Payload.strList [])],
         Except.error Stop.brk))
  ∧ (∀ (a : IvtArgs) (o : MeasOracle) (n : Nat) (pixels px2 : List String),
      a.mppt_dwell > 0 → o.track n pixels = Except.ok px2 →
      px2.length = pixels.length →
      mpptPhase a o n pixels =
        (lightOnEvs o ++ [logEv 20 "Performing max. power tracking.",
            clearEv "mppt_measurement"],
         Except.ok px2))
  ∧ (∀ (a : IvtArgs) (o : MeasOracle) (fuel loopv : Nat)
        (pixels : List String) (evs : List Ev),
      (loopv < a.cycles ∨ a.cycles = 0) →
      cycleBody a o (loopv + 1) pixels = (evs, Except.error Stop.brk) →
      ivtLoop a o (fuel + 1) loopv pixels = (evs, LoopRes.done))
  ∧ (∀ (evs : List Ev) (s : Stop)
        (f : List String → List Ev × Except Stop (List String)),
      stepBind (evs, Except.error s) f = (evs, Except.error s)) := by
  refine ⟨?_, ?_, ?_, ?_, ?_⟩
  · intro a o n pixels px2 hm ht hlt hne
    have h1 : pixels.length ≠ px2.length := by omega
    have h2 : ¬px2.length = 0 := by
      cases px2 with
      | nil => exact absurd rfl hne
      | cons x xs => simp
    simp [mpptPhase, mpptReconcile, ht, hm, h1, h2]
  · intro a o n pixels hm ht hne
    have h1 : pixels.length ≠ 0 := by
      cases pixels with
      | nil => exact absurd rfl hne
      | cons x xs => simp
    simp [mpptPhase, mpptReconcile, ht, hm, h1]
  · intro a o n pixels px2 hm ht hlen
    simp [mpptPhase, mpptReconcile, ht, hm, hlen]
  · intro a o fuel loopv pixels evs hcond hcb
    unfold ivtLoop
    rw [if_pos hcond, hcb]
  · intro evs s f
    rfl

/-- Witness for claim C7 on concrete queues: pruning to one device, to
zero devices, and not pruning at all; the break ends the loop. -/
theorem mppt_pruning_reconciliation_witness :
    mpptPhase mpptOnlyArgs dropOracle 1 ["a", "b"] =
      (lightOnEvs dropOracle ++ [logEv 20 "Performing max. power tracking.",
          clearEv "mppt_measurement",
          Ev.pub "plotter/live_devices" true (Payload.strList ["b"])],
       Except.ok ["b"])
  ∧ mpptPhase mpptOnlyArgs dropOracle 1 ["a"] =
      (lightOnEvs dropOracle ++ [logEv 20 "Performing max. power tracking.",
          clearEv "mppt_measurement",
          logEv 30 "No devices left to measure.",
          Ev.pub "plotter/live_devices" true (Payload.strList [])],
       Except.error Stop.brk)
  ∧ mpptPhase mpptOnlyArgs okOracle 1 ["a"] =
      (lightOnEvs okOracle ++ [logEv 20 "Performing max. power tracking.",
          clearEv "mppt_measurement"],
       Except.ok ["a"])
  ∧ ivtLoop mpptOnlyArgs dropOracle 1 0 ["a"] =
      ((cycleBody mpptOnlyArgs dropOracle 1 ["a"]).1, LoopRes.done)
  ∧ stepBind ([], Except.error Stop.brk)
      (fun px => jscPhase mpptOnlyArgs okOracle 1 px) =
      ([], Except.error Stop.brk) :=
  ⟨mppt_pruning_reconciliation.1 mpptOnlyArgs dropOracle 1 ["a", "b"] ["b"]
      (by decide) rfl (by decide) (by decide),
   mppt_pruning_reconciliation.2.1 mpptOnlyArgs dropOracle 1 ["a"]
      (by decide) rfl (by decide),
   mppt_pruning_reconciliation.2.2.1 mpptOnlyArgs okOracle 1 ["a"] ["a"]
      (by decide) rfl rfl,
   mppt_pruning_reconciliation.2.2.2.1 mpptOnlyArgs dropOracle 0 0 ["a"]
      (cycleBody mpptOnlyArgs dropOracle 1 ["a"]).1 (Or.inl (by decide)) rfl,
   mppt_pruning_reconciliation.2.2.2.2 [] Stop.brk
      (fun px => jscPhase mpptOnlyArgs okOracle 1 px)⟩

/-- Claim C8 counterexample: an undecodable payload produces a severity-40
log (not a warning) in the measurement-server handler, and the utility
handler turns it into the empty command that is enqueued, not discarded
with a warning. -/
theorem malformed_message_not_warned :
    (msgHandlerStep ["measurement", "run"] none ⟨0, false, []⟩ 1).1 =
      [Ev.pub "measurement/log" false
        (Payload.logMsg 40 "Invalid message payload on topic: measurement/run!")]
  ∧ filter_cmd UtilPayload.garbage = ""
  ∧ managerStep true 0 "" =
      ([UEv.statusLog 10 "New command message!", UEv.enqueueTask ""],
       MgrOutcome.queued)
  ∧ (40 : Nat) ≠ 30 :=
  ⟨rfl, rfl, rfl, by decide⟩

/-- Claim C8 as amended: a payload that fails to deserialize is discarded
by the measurement-server handler with exactly one severity-40 log event
naming the topic and no state change; the utility handler emits no warning
but normalizes it to the empty command, which the manager enqueues when
the task queue is idle and rejects with a busy warning otherwise, and for
which the worker has no dispatch branch; neither loop fails. -/
theorem malformed_message_handling :
    (∀ (parts : List String) (st : ServerState) (newPid : Nat),
      msgHandlerStep parts none st newPid =
        ([logEv 40 ("Invalid message payload on topic: "
            ++ String.intercalate "/" parts ++ "!")], st))
  ∧ (∀ p : UtilPayload,
      p = UtilPayload.garbage ∨ p = UtilPayload.nonIterable ∨
        p = UtilPayload.noCmd →
      filter_cmd p = "")
  ∧ (∀ estopOk : Bool,
      managerStep estopOk 0 "" =
        ([UEv.statusLog 10 "New command message!", UEv.enqueueTask ""],
         MgrOutcome.queued))
  ∧ (∀ (estopOk : Bool) (u : Nat), 0 < u →
      managerStep estopOk u "" =
        ([UEv.statusLog 10 "New command message!",
          UEv.statusLog 30 ("Backend busy (task queue size = "
            ++ toString u ++ "). Command rejected.")],
         MgrOutcome.busyRejected))
  ∧ workerHandles "" = false
  ∧ (∀ u : Nat, workerStep "" u =
      [UEv.statusLog 10 ("New task: " ++ "" ++ " (queue size = "
        ++ toString u ++ ")")]) := by
  refine ⟨fun parts st newPid => rfl, ?_, fun estopOk => rfl, ?_, rfl,
    fun u => rfl⟩
  · intro p hp
    rcases hp with rfl | rfl | rfl <;> rfl
  · intro estopOk u hu
    have h0 : ¬u = 0 := by omega
    simp [managerStep, h0, hu]

/-- Witness for claim C8 on a concrete topic, payload and busy queue. -/
theorem malformed_message_handling_witness :
    msgHandlerStep ["cmd", "util"] none ⟨0, false, []⟩ 1 =
      ([logEv 40 "Invalid message payload on topic: cmd/util!"],
        ⟨0, false, []⟩)
  ∧ filter_cmd UtilPayload.noCmd = ""
  ∧ managerStep false 2 "" =
      ([UEv.statusLog 10 "New command message!",
        UEv.statusLog 30 "Backend busy (task queue size = 2). Command rejected."],
       MgrOutcome.busyRejected) :=
  ⟨malformed_message_handling.1 ["cmd", "util"] ⟨0, false, []⟩ 1,
   malformed_message_handling.2.1 UtilPayload.noCmd (Or.inr (Or.inr rfl)),
   malformed_message_handling.2.2.2.1 false 2 (by decide)⟩

/-- Claim C9 counterexample: a well-formed command with an unrecognized
cmd value is admitted to the task queue by the manager when the queue is
idle; the worker has no branch for it, and no debug-level drop occurs. -/
theorem unrecognized_cmd_enqueued :
    managerStep true 0 "frobnicate" =
      ([UEv.statusLog 10 "New command message!",
        UEv.enqueueTask "frobnicate"], MgrOutcome.queued)
  ∧ workerHandles "frobnicate" = false := by
  exact ⟨rfl, by decide⟩

/-- Claim C9 as amended: an unrecognized command is admitted to the task
queue whenever the queue has zero unfinished tasks (with only the debug
new-command log), is rejected with a level-30 busy event when a task is
outstanding, is executed by no worker branch, and the debug-level rejected
branch of the manager is unreachable. -/
theorem unrecognized_cmd_disposition :
    (∀ (estopOk : Bool) (cmd : String), cmd ≠ "estop" →
      managerStep estopOk 0 cmd =
        ([UEv.statusLog 10 "New command message!", UEv.enqueueTask cmd],
         MgrOutcome.queued))
  ∧ (∀ (estopOk : Bool) (u : Nat) (cmd : String), cmd ≠ "estop" → 0 < u →
      managerStep estopOk u cmd =
        ([UEv.statusLog 10 "New command message!",
          UEv.statusLog 30 ("Backend busy (task queue size = "
            ++ toString u ++ "). Command rejected.")],
         MgrOutcome.busyRejected))
  ∧ (∀ (cmd : String) (u : Nat), workerHandles cmd = false →
      workerStep cmd u =
        [UEv.statusLog 10 ("New task: " ++ cmd ++ " (queue size = "
          ++ toString u ++ ")")])
  ∧ (∀ (estopOk : Bool) (u : Nat) (cmd : String),
      (managerStep estopOk u cmd).2 ≠ MgrOutcome.droppedDebug) := by
  refine ⟨?_, ?_, ?_, ?_⟩
  · intro estopOk cmd h
    simp [managerStep, h]
  · intro estopOk u cmd h hu
    have h0 : ¬u = 0 := by omega
    simp [managerStep, h, h0, hu]
  · intro cmd u h
    simp [workerStep, h]
  · intro estopOk u cmd
    by_cases hc : cmd = "estop"
    · simp [managerStep, hc]
    · rcases Nat.eq_zero_or_pos u with hu | hu
      · simp [managerStep, hc, hu]
      · have h0 : ¬u = 0 := by omega
        simp [managerStep, hc, h0, hu]

/-- Witness for claim C9 at a concrete unrecognized command. -/
theorem unrecognized_cmd_disposition_witness :
    managerStep false 0 "zap" =
      ([UEv.statusLog 10 "New command message!", UEv.enqueueTask "zap"],
       MgrOutcome.queued)
  ∧ managerStep false 3 "zap" =
      ([UEv.statusLog 10 "New command message!",
        UEv.statusLog 30 "Backend busy (task queue size = 3). Command rejected."],
       MgrOutcome.busyRejected)
  ∧ workerStep "zap" 0 = [UEv.statusLog 10 "New task: zap (queue size = 0)"]
  ∧ (managerStep false 0 "estop").2 ≠ MgrOutcome.droppedDebug :=
  ⟨unrecognized_cmd_disposition.1 false "zap" (by decide),
   unrecognized_cmd_disposition.2.1 false 3 "zap" (by decide) (by decide),
   unrecognized_cmd_disposition.2.2.1 "zap" 0 (by decide),
   unrecognized_cmd_disposition.2.2.2 false 0 "estop"⟩

/-- Claim C10: a run message with both enable flags false is silently
consumed: no events are published and the server state is unchanged,
whatever the state. -/
theorem run_request_disabled_ignored (st : ServerState) (newPid : Nat) :
    msgHandlerStep ["measurement", "run"] (some (MPayload.runReq false false))
        st newPid = ([], st) := rfl

/-- Witness for claim C10 on a concrete idle server state. -/
theorem run_request_disabled_ignored_witness :
    msgHandlerStep ["measurement", "run"] (some (MPayload.runReq false false))
        ⟨0, false, []⟩ 1 = ([], ⟨0, false, []⟩) :=
  run_request_disabled_ignored ⟨0, false, []⟩ 1

end CentralControl
